import Mathlib

/-!
# go-flv: FLV tags (`tag/tag.go`) and the tag decoder core

Shallow embedding of `tag/tag.go` and of the stream decoder exercised by
`decoder_test.go`.

Conventions of the embedding:

* Go's `uint8`, `uint32` and `int32` values are natural numbers / integers;
  a byte is a `Nat` and the theorems that depend on the range say `b < 256`.
* A Go `map[K]string` literal is the list of its entries in source order;
  indexing it (`m[k]`) returns the entry's string, or Go's zero value `""`
  when the key has no entry.
* A Go `io.Reader` held in a payload is a finite byte run (the unread bytes)
  together with the signal it reports once the bytes are used up.
* A loop of the Go library or a recursive call takes a fuel argument; `none`
  means the fuel ran out before the call returned.
-/

namespace Flv

/-! ## Go maps with string values -/

/-- Go map literal with integer keys and string values, entries in source order. -/
abbrev NameMap := List (Nat × String)

/-- Go's `m[k]` on a `map[K]string`: the entry's value, or `""` when `k` has no entry. -/
def NameMap.index (m : NameMap) (k : Nat) : String :=
  match m.find? (fun e => e.1 == k) with
  | some e => e.2
  | none => ""

/-! ## FLV tags: tag types -/

def TagTypeAudio : Nat := 8
def TagTypeVideo : Nat := 9
def TagTypeScriptData : Nat := 18

/-! ## Audio tags: enumerations and display names -/

def SoundFormatLinearPCMPlatformEndian : Nat := 0
def SoundFormatADPCM : Nat := 1
def SoundFormatMP3 : Nat := 2
def SoundFormatLinearPCMLittleEndian : Nat := 3
def SoundFormatNellymoser16kHzMono : Nat := 4
def SoundFormatNellymoser8kHzMono : Nat := 5
def SoundFormatNellymoser : Nat := 6
def SoundFormatG711ALawLogarithmicPCM : Nat := 7
def SoundFormatG711muLawLogarithmicPCM : Nat := 8
def SoundFormatReserved : Nat := 9
def SoundFormatAAC : Nat := 10
def SoundFormatSpeex : Nat := 11
def SoundFormatMP3_8kHz : Nat := 14
def SoundFormatDeviceSpecificSound : Nat := 15

def SoundFormatName : NameMap :=
  [ (SoundFormatLinearPCMPlatformEndian, "LinearPCMPlatformEndian"),
    (SoundFormatADPCM, "ADPCM"),
    (SoundFormatMP3, "MP3"),
    (SoundFormatLinearPCMLittleEndian, "LinearPCMLittleEndian"),
    (SoundFormatNellymoser16kHzMono, "Nellymoser16kHzMono"),
    (SoundFormatNellymoser8kHzMono, "Nellymoser8kHzMono"),
    (SoundFormatNellymoser, "Nellymoser"),
    (SoundFormatG711ALawLogarithmicPCM, "G711ALawLogarithmicPCM"),
    (SoundFormatG711muLawLogarithmicPCM, "G711muLawLogarithmicPCM"),
    (SoundFormatReserved, "Reserved"),
    (SoundFormatAAC, "AAC"),
    (SoundFormatSpeex, "Speex"),
    (SoundFormatMP3_8kHz, "MP3_8kHz"),
    (SoundFormatDeviceSpecificSound, "DeviceSpecificSound") ]

def SoundRate5_5kHz : Nat := 0
def SoundRate11kHz : Nat := 1
def SoundRate22kHz : Nat := 2
def SoundRate44kHz : Nat := 3

def SoundRateName : NameMap :=
  [ (SoundRate5_5kHz, "5_5kHz"),
    (SoundRate11kHz, "11kHz"),
    (SoundRate22kHz, "22kHz"),
    (SoundRate44kHz, "44kHz") ]

def SoundSize8Bit : Nat := 0
def SoundSize16Bit : Nat := 1

def SoundSizeName : NameMap :=
  [ (SoundSize8Bit, "8Bit"),
    (SoundSize16Bit, "16Bit") ]

def SoundTypeMono : Nat := 0
def SoundTypeStereo : Nat := 1

def SoundTypeName : NameMap :=
  [ (SoundTypeMono, "Mono"),
    (SoundTypeStereo, "Stereo") ]

def AACPacketTypeSequenceHeader : Nat := 0
def AACPacketTypeRaw : Nat := 1

def AACPacketTypeName : NameMap :=
  [ (AACPacketTypeSequenceHeader, "SequenceHeader"),
    (AACPacketTypeRaw, "Raw") ]

/-! ## Video tags: enumerations and display names -/

def FrameTypeKeyFrame : Nat := 1
def FrameTypeInterFrame : Nat := 2
def FrameTypeDisposableInterFrame : Nat := 3
def FrameTypeGeneratedKeyFrame : Nat := 4
def FrameTypeVideoInfoCommandFrame : Nat := 5

def CodecIDJPEG : Nat := 1
def CodecIDSorensonH263 : Nat := 2
def CodecIDScreenVideo : Nat := 3
def CodecIDOn2VP6 : Nat := 4
def CodecIDOn2VP6WithAlphaChannel : Nat := 5
def CodecIDScreenVideoVersion2 : Nat := 6
def CodecIDAVC : Nat := 7

def FrameTypeName : NameMap :=
  [ (FrameTypeKeyFrame, "KeyFrame"),
    (FrameTypeInterFrame, "InterFrame"),
    (FrameTypeDisposableInterFrame, "DisposableInterFrame"),
    (FrameTypeGeneratedKeyFrame, "GeneratedKeyFrame"),
    (FrameTypeVideoInfoCommandFrame, "VideoInfoCommandFrame") ]

def CodecIDName : NameMap :=
  [ (CodecIDJPEG, "JPEG"),
    (CodecIDSorensonH263, "SorensonH263"),
    (CodecIDScreenVideo, "ScreenVideo"),
    (CodecIDOn2VP6, "On2VP6"),
    (CodecIDOn2VP6WithAlphaChannel, "On2VP6WithAlphaChannel"),
    (CodecIDScreenVideoVersion2, "ScreenVideoVersion2"),
    (CodecIDAVC, "AVC") ]

def AVCPacketTypeSequenceHeader : Nat := 0
def AVCPacketTypeNALU : Nat := 1
def AVCPacketTypeEOS : Nat := 2

def AVCPacketTypeName : NameMap :=
  [ (AVCPacketTypeSequenceHeader, "SequenceHeader"),
    (AVCPacketTypeNALU, "NALU"),
    (AVCPacketTypeEOS, "EOS") ]

def AVCNaluTypeSLICE : Nat := 1
def AVCNaluTypeDPA : Nat := 2
def AVCNaluTypeDPB : Nat := 3
def AVCNaluTypeDPC : Nat := 4
def AVCNaluTypeIDR : Nat := 5
def AVCNaluTypeSEI : Nat := 6
def AVCNaluTypeSPS : Nat := 7
def AVCNaluTypePPS : Nat := 8
def AVCNaluTypeAUD : Nat := 9
def AVCNaluTypeEOSEQ : Nat := 10
def AVCNaluTypeEOSTREAM : Nat := 11
def AVCNaluTypeFILL : Nat := 12

def AVCNaluTypeName : NameMap :=
  [ (AVCNaluTypeSLICE, "SLICE"),
    (AVCNaluTypeDPA, "DPA"),
    (AVCNaluTypeDPB, "DPB"),
    (AVCNaluTypeDPC, "DPC"),
    (AVCNaluTypeIDR, "IDR"),
    (AVCNaluTypeSEI, "SEI"),
    (AVCNaluTypeSPS, "SPS"),
    (AVCNaluTypePPS, "PPS"),
    (AVCNaluTypeAUD, "AUD"),
    (AVCNaluTypeEOSEQ, "EOSEQ"),
    (AVCNaluTypeEOSTREAM, "EOSTREAM"),
    (AVCNaluTypeFILL, "FILL") ]

def GetAVCNaluTypeName (naluType : Nat) : String :=
  AVCNaluTypeName.index naluType

/-! ## Byte runs: the `io.Reader` held by a payload -/

/-- Go `error` values a byte run can report: `io.EOF`, or any other error. -/
inductive ReadErr where
  | EOF
  | other (code : Nat)
  deriving DecidableEq

/-- Go `io.Reader` over a bounded byte run: the bytes not yet read, and the
signal reported by a read once they are used up (`io.EOF` for a run whose
reads do not fail). -/
structure Reader where
  unread : List Nat
  atEnd : ReadErr
  deriving DecidableEq

/-- Result of one `Read(buf)`: the bytes written to the front of `buf` (their
number is Go's `n`), the returned `error` (`none` is Go's `nil`), and the
reader afterwards. -/
structure ReadResult where
  bytes : List Nat
  err : Option ReadErr
  next : Reader
  deriving DecidableEq

/-- Go `Read(buf)` with `len(buf) = bufLen` on a byte run: at the end of the
run it delivers nothing and reports the end signal; otherwise it delivers the
next `min bufLen remaining` bytes and no error. -/
def Reader.Read (r : Reader) (bufLen : Nat) : ReadResult :=
  match r.unread with
  | [] => { bytes := [], err := some r.atEnd, next := r }
  | _ :: _ =>
    { bytes := r.unread.take bufLen, err := none,
      next := { r with unread := r.unread.drop bufLen } }

/-- Runtime panic of the Go program (a method call through a nil interface). -/
inductive Panic where
  | nilDereference
  deriving DecidableEq

/-- Size of the scratch buffer `io.Discard` reads into. -/
def discardBufLen : Nat := 8192

/-- Go `io.Discard.ReadFrom(r)`, the loop `io.Copy(ioutil.Discard, r)` runs:
read into the scratch buffer until a read reports an error; `io.EOF` ends the
copy with a nil error, any other error is returned. The result is the number
of bytes copied, the error and the reader afterwards. -/
def discardReadFrom : Nat → Reader → Nat → Option (Nat × Option ReadErr × Reader)
  | 0, _, _ => none
  | fuel + 1, r, n =>
    let res := r.Read discardBufLen
    let n := n + res.bytes.length
    match res.err with
    | none => discardReadFrom fuel res.next n
    | some ReadErr.EOF => some (n, none, res.next)
    | some e => some (n, some e, res.next)

/-- Go `io.Copy(ioutil.Discard, src)` on a possibly nil `io.Reader`: a nil
source panics at its first `Read`. -/
def copyToDiscard (fuel : Nat) (src : Option Reader) :
    Option (Except Panic (Nat × Option ReadErr × Reader)) :=
  match src with
  | none => some (Except.error Panic.nilDereference)
  | some r => (discardReadFrom fuel r 0).map Except.ok

/-! ## Payloads and tags -/

structure AudioData where
  SoundFormat : Nat
  SoundRate : Nat
  SoundSize : Nat
  SoundType : Nat
  AACPacketType : Nat
  Data : Option Reader
  deriving DecidableEq

def AudioData.SoundFormatName (d : AudioData) : String :=
  Flv.SoundFormatName.index d.SoundFormat

def AudioData.SoundRateName (d : AudioData) : String :=
  Flv.SoundRateName.index d.SoundRate

def AudioData.SoundSizeName (d : AudioData) : String :=
  Flv.SoundSizeName.index d.SoundSize

def AudioData.SoundTypeName (d : AudioData) : String :=
  Flv.SoundTypeName.index d.SoundType

def AudioData.AACPacketTypeName (d : AudioData) : String :=
  Flv.AACPacketTypeName.index d.AACPacketType

/-- Go `func (d *AudioData) Read(buf []byte) (int, error) { return d.Read(buf) }`:
the body is a call of the method itself on the same receiver and buffer. -/
def AudioData.Read : Nat → AudioData → Nat → Option (ReadResult × AudioData)
  | 0, _, _ => none
  | fuel + 1, d, bufLen => AudioData.Read fuel d bufLen

/-- Go `func (d *AudioData) Close()`: `io.Copy(ioutil.Discard, d.Data)` with
both results dropped; the byte run is left where the copy stopped. -/
def AudioData.Close (fuel : Nat) (d : AudioData) : Option (Except Panic AudioData) :=
  match copyToDiscard fuel d.Data with
  | none => none
  | some (Except.error p) => some (Except.error p)
  | some (Except.ok (_, _, r)) => some (Except.ok { d with Data := some r })

structure VideoData where
  FrameType : Nat
  CodecID : Nat
  AVCPacketType : Nat
  CompositionTime : Int
  Data : Option Reader
  deriving DecidableEq

def VideoData.FrameTypeName (d : VideoData) : String :=
  Flv.FrameTypeName.index d.FrameType

def VideoData.CodecIDName (d : VideoData) : String :=
  Flv.CodecIDName.index d.CodecID

def VideoData.AVCPacketTypeName (d : VideoData) : String :=
  Flv.AVCPacketTypeName.index d.AVCPacketType

/-- Go `func (d *VideoData) Read(buf []byte) (int, error) { return d.Read(buf) }`:
the body is a call of the method itself on the same receiver and buffer. -/
def VideoData.Read : Nat → VideoData → Nat → Option (ReadResult × VideoData)
  | 0, _, _ => none
  | fuel + 1, d, bufLen => VideoData.Read fuel d bufLen

/-- Go `func (d *VideoData) Close()`: `io.Copy(ioutil.Discard, d.Data)` with
both results dropped. -/
def VideoData.Close (fuel : Nat) (d : VideoData) : Option (Except Panic VideoData) :=
  match copyToDiscard fuel d.Data with
  | none => none
  | some (Except.error p) => some (Except.error p)
  | some (Except.ok (_, _, r)) => some (Except.ok { d with Data := some r })

/-- AMF0 value of a script-data payload. A number is kept as the 64-bit
pattern of its IEEE-754 encoding; strings and keys are byte strings. -/
inductive AMF0Value where
  | number (bits : Nat)
  | boolean (b : Bool)
  | string (s : List Nat)
  | object (entries : List (List Nat × AMF0Value))
  | null
  | undefined
  | ecmaArray (entries : List (List Nat × AMF0Value))

/-- Go `map[string]interface{}` of AMF0 values: entries in insertion order,
one per key. -/
abbrev AMF0Map := List (List Nat × AMF0Value)

structure ScriptData where
  Objects : AMF0Map

/-- Go `Data interface{} // *AudioData | *VideoData | *ScriptData`, or nil. -/
inductive TagData where
  | absent
  | audio (d : AudioData)
  | video (d : VideoData)
  | script (d : ScriptData)

structure FlvTag where
  TagType : Nat
  DataSize : Nat
  Timestamp : Nat
  TimestampExtended : Nat
  StreamID : Nat
  Data : TagData

/-- Go `func (t *FlvTag) Close()`: a type switch on `t.Data` that closes an
audio or a video payload and does nothing in every other case. -/
def FlvTag.Close (fuel : Nat) (t : FlvTag) : Option (Except Panic FlvTag) :=
  match t.Data with
  | TagData.audio d =>
    match AudioData.Close fuel d with
    | none => none
    | some (Except.error p) => some (Except.error p)
    | some (Except.ok d') => some (Except.ok { t with Data := TagData.audio d' })
  | TagData.video d =>
    match VideoData.Close fuel d with
    | none => none
    | some (Except.error p) => some (Except.error p)
    | some (Except.ok d') => some (Except.ok { t with Data := TagData.video d' })
  | _ => some (Except.ok t)

/-! ## Tag decoder core

The decoder of the stream (`NewDecoder`, `Decode` and the payload decoders)
is described by the specification, sections 4.1 to 4.6, 6 and 7.
-/

/-- Modelled from the spec: the decoder's error taxonomy (section 7); the
decoder source file is not among the sources. `EndOfStream` is the clean
termination signal. -/
inductive DecodeError where
  | EndOfStream
  | TruncatedError
  | FormatError
  | UnknownTagTypeError (tagType : Nat)
  | UnsupportedAMF0MarkerError (marker : Nat)
  | InvalidPacketTypeError (packetType : Nat)
  | ShortPayloadError
  | MalformedAMF0Error
  deriving DecidableEq

/-- Modelled from the spec: the byte-stream source of section 6, missing from
the sources: the bytes not yet consumed and the cursor (bytes consumed so far). -/
structure Source where
  unread : List Nat
  cursor : Nat
  deriving DecidableEq

/-- Modelled from the spec: the primitive reader of the next `n` bytes
(sections 2 and 6), missing from the sources. It reports distinctly a clean
end-of-data with zero bytes delivered and a short read inside a larger run. -/
def Source.readN (s : Source) (n : Nat) : Except DecodeError (List Nat) × Source :=
  if n ≤ s.unread.length then
    (Except.ok (s.unread.take n), { unread := s.unread.drop n, cursor := s.cursor + n })
  else if s.unread.isEmpty then
    (Except.error DecodeError.EndOfStream, s)
  else
    (Except.error DecodeError.TruncatedError,
      { unread := [], cursor := s.cursor + s.unread.length })

/-- Modelled from the spec: the primitive reader of a fixed-width big-endian
unsigned integer (section 2), missing from the sources. -/
def beUint (bs : List Nat) : Nat :=
  bs.foldl (fun acc b => acc * 256 + b) 0

/-- Modelled from the spec: a 3-byte big-endian two's-complement signed value
(section 4.4), missing from the sources. -/
def beInt24 (bs : List Nat) : Int :=
  if beUint bs < 2 ^ 23 then (beUint bs : Int) else (beUint bs : Int) - 2 ^ 24

/-- Modelled from the spec: the container header of section 3. -/
structure Header where
  Version : Nat
  Flags : Nat
  HeaderLength : Nat
  deriving DecidableEq

/-- Modelled from the spec: the container header reader of section 4.1,
missing from the sources: signature `FLV`, version, content flags, 4-byte
header length; bytes of the header beyond the ninth are read and discarded. -/
def readContainerHeader (s : Source) : Except DecodeError Header × Source :=
  match s.readN 9 with
  | (Except.error _, s1) => (Except.error DecodeError.TruncatedError, s1)
  | (Except.ok h, s1) =>
    if h.take 3 = [0x46, 0x4c, 0x56] then
      let hdr : Header :=
        { Version := h.getD 3 0, Flags := h.getD 4 0, HeaderLength := beUint (h.drop 5) }
      match s1.readN (hdr.HeaderLength - 9) with
      | (Except.error _, s2) => (Except.error DecodeError.TruncatedError, s2)
      | (Except.ok _, s2) => (Except.ok hdr, s2)
    else (Except.error DecodeError.FormatError, s1)

/-- Modelled from the spec: the audio payload decoder of section 4.3, missing
from the sources: one header byte split into sound-format (top 4 bits),
sound-rate (2 bits), sound-size (1 bit) and sound-type (1 bit), one
AAC-packet-type byte when the format is AAC, the rest is the raw byte run. -/
def DecodeAudioData (payload : List Nat) : Except DecodeError AudioData :=
  match payload with
  | [] => Except.error DecodeError.ShortPayloadError
  | b :: rest =>
    let soundFormat := (b >>> 4) &&& 0x0f
    let soundRate := (b >>> 2) &&& 0x03
    let soundSize := (b >>> 1) &&& 0x01
    let soundType := b &&& 0x01
    if soundFormat = SoundFormatAAC then
      match rest with
      | [] => Except.error DecodeError.ShortPayloadError
      | p :: raw =>
        if p = AACPacketTypeSequenceHeader ∨ p = AACPacketTypeRaw then
          Except.ok
            { SoundFormat := soundFormat, SoundRate := soundRate, SoundSize := soundSize,
              SoundType := soundType, AACPacketType := p,
              Data := some { unread := raw, atEnd := ReadErr.EOF } }
        else Except.error (DecodeError.InvalidPacketTypeError p)
    else
      Except.ok
        { SoundFormat := soundFormat, SoundRate := soundRate, SoundSize := soundSize,
          SoundType := soundType, AACPacketType := 0,
          Data := some { unread := rest, atEnd := ReadErr.EOF } }

/-- Modelled from the spec: the video payload decoder of section 4.4, missing
from the sources: one header byte split into frame-type (top 4 bits) and
codec-id (bottom 4 bits); for AVC one AVC-packet-type byte and a 3-byte signed
composition-time offset; the rest is the raw byte run. -/
def DecodeVideoData (payload : List Nat) : Except DecodeError VideoData :=
  match payload with
  | [] => Except.error DecodeError.ShortPayloadError
  | b :: rest =>
    let frameType := (b >>> 4) &&& 0x0f
    let codecID := b &&& 0x0f
    if codecID = CodecIDAVC then
      match rest with
      | [] => Except.error DecodeError.ShortPayloadError
      | p :: rest1 =>
        if p = AVCPacketTypeSequenceHeader ∨ p = AVCPacketTypeNALU ∨ p = AVCPacketTypeEOS then
          if 3 ≤ rest1.length then
            Except.ok
              { FrameType := frameType, CodecID := codecID, AVCPacketType := p,
                CompositionTime := beInt24 (rest1.take 3),
                Data := some { unread := rest1.drop 3, atEnd := ReadErr.EOF } }
          else Except.error DecodeError.ShortPayloadError
        else Except.error (DecodeError.InvalidPacketTypeError p)
    else
      Except.ok
        { FrameType := frameType, CodecID := codecID, AVCPacketType := 0,
          CompositionTime := 0,
          Data := some { unread := rest, atEnd := ReadErr.EOF } }

/-- Modelled from the spec: storing a key in an ordered mapping (sections 3
and 4.5): a duplicate key overwrites the earlier value, insertion order is
otherwise preserved. -/
def AMF0Map.insert (m : AMF0Map) (k : List Nat) (v : AMF0Value) : AMF0Map :=
  if m.any (fun e => e.1 == k) then
    m.map (fun e => if e.1 == k then (e.1, v) else e)
  else m ++ [(k, v)]

/-- Modelled from the spec: a 2-byte-length-prefixed byte string of the AMF0
encoding (section 4.5); `none` when the bytes run out. -/
def readAMF0String (bs : List Nat) : Option (List Nat × List Nat) :=
  match bs with
  | l0 :: l1 :: rest =>
    if beUint [l0, l1] ≤ rest.length then
      some (rest.take (beUint [l0, l1]), rest.drop (beUint [l0, l1]))
    else none
  | _ => none

mutual

/-- Modelled from the spec: the AMF0 value decoder of section 4.5, missing
from the sources: one marker byte followed by marker-specific content. The
result is the value and the bytes after it; the outer `none` is fuel
exhaustion. -/
def decodeAMF0Value : Nat → List Nat → Option (Except DecodeError (AMF0Value × List Nat))
  | 0, _ => none
  | _ + 1, [] => some (Except.error DecodeError.MalformedAMF0Error)
  | fuel + 1, marker :: bs =>
    if marker = 0x00 then
      if 8 ≤ bs.length then
        some (Except.ok (AMF0Value.number (beUint (bs.take 8)), bs.drop 8))
      else some (Except.error DecodeError.MalformedAMF0Error)
    else if marker = 0x01 then
      match bs with
      | [] => some (Except.error DecodeError.MalformedAMF0Error)
      | b :: rest => some (Except.ok (AMF0Value.boolean (b != 0), rest))
    else if marker = 0x02 then
      match readAMF0String bs with
      | none => some (Except.error DecodeError.MalformedAMF0Error)
      | some (s, rest) => some (Except.ok (AMF0Value.string s, rest))
    else if marker = 0x03 then
      match decodeAMF0Entries fuel bs [] with
      | none => none
      | some (Except.error e) => some (Except.error e)
      | some (Except.ok (m, rest)) => some (Except.ok (AMF0Value.object m, rest))
    else if marker = 0x05 then some (Except.ok (AMF0Value.null, bs))
    else if marker = 0x06 then some (Except.ok (AMF0Value.undefined, bs))
    else if marker = 0x08 then
      if 4 ≤ bs.length then
        match decodeAMF0Entries fuel (bs.drop 4) [] with
        | none => none
        | some (Except.error e) => some (Except.error e)
        | some (Except.ok (m, rest)) => some (Except.ok (AMF0Value.ecmaArray m, rest))
      else some (Except.error DecodeError.MalformedAMF0Error)
    else some (Except.error (DecodeError.UnsupportedAMF0MarkerError marker))

/-- Modelled from the spec: the key/value entries of an AMF0 object or ECMA
array (section 4.5): pairs of a 2-byte-length-prefixed key and a nested value
until the 3-byte end marker `00 00 09`. -/
def decodeAMF0Entries :
    Nat → List Nat → AMF0Map → Option (Except DecodeError (AMF0Map × List Nat))
  | 0, _, _ => none
  | fuel + 1, bs, acc =>
    if bs.take 3 = [0x00, 0x00, 0x09] then some (Except.ok (acc, bs.drop 3))
    else
      match readAMF0String bs with
      | none => some (Except.error DecodeError.MalformedAMF0Error)
      | some (key, rest) =>
        match decodeAMF0Value fuel rest with
        | none => none
        | some (Except.error e) => some (Except.error e)
        | some (Except.ok (v, rest1)) => decodeAMF0Entries fuel rest1 (acc.insert key v)

end

/-- Modelled from the spec: the loop of the script-data payload decoder
(section 4.6): (string key, AMF0 value) pairs, each read with the AMF0 value
decoder, until the extent is exhausted. -/
def decodeScriptPairs :
    Nat → List Nat → AMF0Map → Option (Except DecodeError AMF0Map)
  | 0, _, _ => none
  | _ + 1, [], acc => some (Except.ok acc)
  | fuel + 1, b :: bs, acc =>
    match decodeAMF0Value fuel (b :: bs) with
    | none => none
    | some (Except.error e) => some (Except.error e)
    | some (Except.ok (AMF0Value.string key, rest)) =>
      match decodeAMF0Value fuel rest with
      | none => none
      | some (Except.error e) => some (Except.error e)
      | some (Except.ok (v, rest1)) => decodeScriptPairs fuel rest1 (acc.insert key v)
    | some (Except.ok (_, _)) => some (Except.error DecodeError.MalformedAMF0Error)

/-- Modelled from the spec: the script-data payload decoder of section 4.6,
missing from the sources. Every step of the loops consumes a byte of the
extent, so a fuel of two more than the extent's length is never used up
(`decodeScriptPairs_fuel`) and the last case below does not occur. -/
def DecodeScriptData (payload : List Nat) : Except DecodeError ScriptData :=
  match decodeScriptPairs (payload.length + 2) payload [] with
  | some (Except.ok m) => Except.ok { Objects := m }
  | some (Except.error e) => Except.error e
  | none => Except.error DecodeError.MalformedAMF0Error

/-- Modelled from the spec: the dispatch of the tag decoder on the tag-type
byte (section 4.2, steps 2 and 3): the payload decoder matching the tag type
runs on the bounded extent; an unrecognized tag type is an
`UnknownTagTypeError` and its extent is not interpreted. -/
def decodePayload (tagType : Nat) (payload : List Nat) : Except DecodeError TagData :=
  if tagType = TagTypeAudio then
    match DecodeAudioData payload with
    | Except.ok d => Except.ok (TagData.audio d)
    | Except.error e => Except.error e
  else if tagType = TagTypeVideo then
    match DecodeVideoData payload with
    | Except.ok d => Except.ok (TagData.video d)
    | Except.error e => Except.error e
  else if tagType = TagTypeScriptData then
    match DecodeScriptData payload with
    | Except.ok d => Except.ok (TagData.script d)
    | Except.error e => Except.error e
  else Except.error (DecodeError.UnknownTagTypeError tagType)

/-- Modelled from the spec: the stream iterator of section 2, missing from the
sources: the container header read at construction and the byte-stream source. -/
structure Decoder where
  header : Header
  r : Source

/-- Modelled from the spec: construction of the decoder over a byte stream,
missing from the sources: the container header is read (section 4.1) and the
4-byte previous-tag-size pad that stands between the header and the first tag
(section 8, concrete scenario) is read and discarded. -/
def NewDecoder (stream : List Nat) : Except DecodeError Decoder :=
  match readContainerHeader { unread := stream, cursor := 0 } with
  | (Except.error e, _) => Except.error e
  | (Except.ok hdr, s1) =>
    match s1.readN 4 with
    | (Except.error _, _) => Except.error DecodeError.TruncatedError
    | (Except.ok _, s2) => Except.ok { header := hdr, r := s2 }

/-- Modelled from the spec: `decode_next()` of section 4.2, the `Decode` call
of the test, missing from the sources. Step 1 reads the 11-byte tag header
(type, 3-byte size, 3-byte timestamp and 1-byte extension combined, 3-byte
stream-id); step 3 reads exactly data-size bytes as the payload extent and
runs the payload decoder on it; step 5 reads and discards the 4-byte trailer;
step 6 returns the tag or the payload error. -/
def Decoder.Decode (dec : Decoder) : Except DecodeError FlvTag × Decoder :=
  match dec.r.readN 11 with
  | (Except.error e, r1) => (Except.error e, { dec with r := r1 })
  | (Except.ok h, r1) =>
    let tagType := h.getD 0 0
    let dataSize := beUint ((h.drop 1).take 3)
    let timestamp := h.getD 7 0 * 2 ^ 24 + beUint ((h.drop 4).take 3)
    let streamID := beUint ((h.drop 8).take 3)
    match r1.readN dataSize with
    | (Except.error _, r2) => (Except.error DecodeError.TruncatedError, { dec with r := r2 })
    | (Except.ok payload, r2) =>
      match r2.readN 4 with
      | (Except.error _, r3) => (Except.error DecodeError.TruncatedError, { dec with r := r3 })
      | (Except.ok _, r3) =>
        match decodePayload tagType payload with
        | Except.error e => (Except.error e, { dec with r := r3 })
        | Except.ok data =>
          (Except.ok
            { TagType := tagType, DataSize := dataSize, Timestamp := timestamp,
              TimestampExtended := h.getD 7 0, StreamID := streamID, Data := data },
            { dec with r := r3 })

/-- The stream of `TestDecodeSkipBrokenTag`. -/
def testStream : List Nat :=
  [ 0x46, 0x4c, 0x56,
    0x01,
    0x05,
    0x00, 0x00, 0x00, 0x09,
    0x00, 0x00, 0x00, 0x00,
    0x12,
    0x00, 0x00, 0x05,
    0x00, 0x00, 0x00, 0x00,
    0x00, 0x00, 0x00,
    0xff, 0xff, 0xff, 0xff, 0xff,
    0x00, 0x00, 0x00, 0x10,
    0x09,
    0x00, 0x00, 0x05,
    0x00, 0x00, 0x00, 0x00,
    0x00, 0x00, 0x00,
    0x01, 0x02, 0x03, 0x04, 0x05,
    0x00, 0x00, 0x00, 0x10 ]

/-! ## Vocabulary of the statements -/

/-- The error `io.Copy` returns for the end signal of a byte run: `io.EOF` is
not an error of the copy. -/
def copyError (e : ReadErr) : Option ReadErr :=
  match e with
  | ReadErr.EOF => none
  | e => some e

/-- The raw byte run of a payload, when it has one and it is set. -/
def TagData.byteRun : TagData → Option Reader
  | TagData.audio d => d.Data
  | TagData.video d => d.Data
  | _ => none

/-- An audio or video payload whose raw byte run `Data` is nil. -/
def TagData.byteRunUnset : TagData → Bool
  | TagData.audio d => d.Data.isNone
  | TagData.video d => d.Data.isNone
  | _ => false

/-- Number of unread bytes in the raw byte run of a payload (0 without one). -/
def TagData.unreadLength (data : TagData) : Nat :=
  match data.byteRun with
  | some r => r.unread.length
  | none => 0

def TagData.isAudio : TagData → Bool
  | TagData.audio _ => true
  | _ => false

def TagData.isVideo : TagData → Bool
  | TagData.video _ => true
  | _ => false

def TagData.isScript : TagData → Bool
  | TagData.script _ => true
  | _ => false

/-- The byte run `after` is the byte run `before` at a later read position:
same end signal, and its unread bytes are a suffix of the earlier ones. -/
def Reader.movedFrom : Option Reader → Option Reader → Prop
  | some after, some before => after.atEnd = before.atEnd ∧ after.unread <:+ before.unread
  | none, none => True
  | _, _ => False

/-- The payload `after` is the payload `before` except for the read position
of the raw byte run: same variant, same decoded header fields. -/
def TagData.sameUpToReadPosition : TagData → TagData → Prop
  | TagData.absent, TagData.absent => True
  | TagData.script after, TagData.script before => after.Objects = before.Objects
  | TagData.audio after, TagData.audio before =>
    after.SoundFormat = before.SoundFormat ∧ after.SoundRate = before.SoundRate ∧
      after.SoundSize = before.SoundSize ∧ after.SoundType = before.SoundType ∧
      after.AACPacketType = before.AACPacketType ∧ Reader.movedFrom after.Data before.Data
  | TagData.video after, TagData.video before =>
    after.FrameType = before.FrameType ∧ after.CodecID = before.CodecID ∧
      after.AVCPacketType = before.AVCPacketType ∧
      after.CompositionTime = before.CompositionTime ∧
      Reader.movedFrom after.Data before.Data
  | _, _ => False

/-- Bytes of a container header the header reader accepts as a whole: the
signature `FLV` and a header-length field equal to the number of bytes. -/
def validContainerHeader (hdr : List Nat) : Prop :=
  9 ≤ hdr.length ∧ hdr.take 3 = [0x46, 0x4c, 0x56] ∧ beUint ((hdr.drop 5).take 4) = hdr.length

instance instDecidableValidContainerHeader (hdr : List Nat) :
    Decidable (validContainerHeader hdr) := by
  unfold validContainerHeader
  infer_instance

/-- A display-name table is injective on its entries: every entry has a
non-empty name, a key has a non-empty name exactly when it has an entry, and
two keys with the same non-empty name are the same key. -/
def NameMap.injectiveOnEntries (m : NameMap) : Prop :=
  (∀ e ∈ m, e.2 ≠ "") ∧
    (∀ k, m.index k ≠ "" ↔ k ∈ m.map Prod.fst) ∧
    ∀ x y, m.index x = m.index y → m.index x ≠ "" → x = y

/-! ## Sample values -/

/-- The decoder of the test after `NewDecoder`: header and pad consumed. -/
def testDecoder : Decoder :=
  { header := { Version := 1, Flags := 5, HeaderLength := 9 },
    r := { unread := testStream.drop 13, cursor := 13 } }

/-- The video tag of the test stream, as decoded. -/
def testVideoTag : FlvTag :=
  { TagType := 9, DataSize := 5, Timestamp := 0, TimestampExtended := 0, StreamID := 0,
    Data := TagData.video
      { FrameType := 0, CodecID := 1, AVCPacketType := 0, CompositionTime := 0,
        Data := some { unread := [0x02, 0x03, 0x04, 0x05], atEnd := ReadErr.EOF } } }

/-- A decoder in front of one tag of the unknown type 0x0a with a 1-byte payload. -/
def unknownTypeDecoder : Decoder :=
  { header := { Version := 1, Flags := 5, HeaderLength := 9 },
    r := { unread :=
            [0x0a, 0x00, 0x00, 0x01, 0x00, 0x00, 0x00, 0x00, 0x00, 0x00, 0x00,
              0xaa, 0x00, 0x00, 0x00, 0x0c],
           cursor := 13 } }

def sampleAudio : AudioData :=
  { SoundFormat := 2, SoundRate := 3, SoundSize := 1, SoundType := 1, AACPacketType := 0,
    Data := some { unread := [1, 2, 3], atEnd := ReadErr.EOF } }

def sampleAudioTag : FlvTag :=
  { TagType := 8, DataSize := 4, Timestamp := 0, TimestampExtended := 0, StreamID := 0,
    Data := TagData.audio sampleAudio }

def sampleAudioTagClosed : FlvTag :=
  { TagType := 8, DataSize := 4, Timestamp := 0, TimestampExtended := 0, StreamID := 0,
    Data := TagData.audio
      { SoundFormat := 2, SoundRate := 3, SoundSize := 1, SoundType := 1, AACPacketType := 0,
        Data := some { unread := [], atEnd := ReadErr.EOF } } }

def sampleVideoUnset : FlvTag :=
  { TagType := 9, DataSize := 1, Timestamp := 0, TimestampExtended := 0, StreamID := 0,
    Data := TagData.video
      { FrameType := 1, CodecID := 2, AVCPacketType := 0, CompositionTime := 0, Data := none } }

def sampleAudioFailing : FlvTag :=
  { TagType := 8, DataSize := 3, Timestamp := 0, TimestampExtended := 0, StreamID := 0,
    Data := TagData.audio
      { SoundFormat := 2, SoundRate := 3, SoundSize := 1, SoundType := 1, AACPacketType := 0,
        Data := some { unread := [7, 7], atEnd := ReadErr.other 5 } } }

def sampleScriptTag : FlvTag :=
  { TagType := 18, DataSize := 0, Timestamp := 0, TimestampExtended := 0, StreamID := 0,
    Data := TagData.script { Objects := [] } }

/-! ## Lemmas on the byte-stream source and the AMF0 fuel -/

theorem readN_append (s : Source) (a b : List Nat) (h : s.unread = a ++ b) :
    s.readN a.length = (Except.ok a, { unread := b, cursor := s.cursor + a.length }) := by
  simp [Source.readN, h]

theorem readN_ok (s : Source) (n : Nat) (bs : List Nat) (s' : Source)
    (h : s.readN n = (Except.ok bs, s')) : bs = s.unread.take n ∧ n ≤ s.unread.length := by
  unfold Source.readN at h
  split at h
  · simp only [Prod.mk.injEq, Except.ok.injEq] at h
    exact ⟨h.1.symm, by assumption⟩
  · split at h <;> simp at h

theorem readAMF0String_length (bs s rest : List Nat) (h : readAMF0String bs = some (s, rest)) :
    rest.length + 2 ≤ bs.length := by
  unfold readAMF0String at h
  split at h
  · split at h
    · simp only [Option.some.injEq, Prod.mk.injEq] at h
      obtain ⟨-, h2⟩ := h
      subst h2
      simp only [List.length_drop, List.length_cons]
      omega
    · cases h
  · cases h

/-- With more fuel than bytes, the AMF0 decoders return, and a decoded value
has consumed at least its marker byte. -/
theorem decodeAMF0_fuel (fuel : Nat) :
    (∀ bs : List Nat, bs.length < fuel →
      ∃ r, decodeAMF0Value fuel bs = some r ∧
        ∀ v rest, r = Except.ok (v, rest) → rest.length < bs.length) ∧
    (∀ (bs : List Nat) (acc : AMF0Map), bs.length < fuel →
      ∃ r, decodeAMF0Entries fuel bs acc = some r ∧
        ∀ m rest, r = Except.ok (m, rest) → rest.length ≤ bs.length) := by
  induction fuel with
  | zero =>
    exact ⟨fun _ h => absurd h (Nat.not_lt_zero _), fun _ _ h => absurd h (Nat.not_lt_zero _)⟩
  | succ fuel ih =>
    obtain ⟨ihV, ihE⟩ := ih
    constructor
    · intro bs hlen
      cases bs with
      | nil => exact ⟨_, rfl, by intro v rest h; cases h⟩
      | cons marker bs =>
        simp only [List.length_cons, Nat.add_lt_add_iff_right] at hlen
        simp only [decodeAMF0Value]
        split
        · split
          · refine ⟨_, rfl, ?_⟩
            intro v rest h
            cases h
            simp only [List.length_drop, List.length_cons]; omega
          · exact ⟨_, rfl, by intro v rest h; cases h⟩
        split
        · cases bs with
          | nil => exact ⟨_, rfl, by intro v rest h; cases h⟩
          | cons b rest0 =>
            refine ⟨_, rfl, ?_⟩
            intro v rest h
            cases h
            simp only [List.length_cons]; omega
        split
        · cases hs : readAMF0String bs with
          | none => exact ⟨_, rfl, by intro v rest h; cases h⟩
          | some p =>
            obtain ⟨s, rest0⟩ := p
            refine ⟨_, rfl, ?_⟩
            intro v rest h
            cases h
            have := readAMF0String_length _ _ _ hs
            simp only [List.length_cons]; omega
        split
        · obtain ⟨r, hr, hdec⟩ := ihE bs [] hlen
          rw [hr]
          cases r with
          | error e => exact ⟨_, rfl, by intro v rest h; cases h⟩
          | ok p =>
            obtain ⟨m, rest0⟩ := p
            refine ⟨_, rfl, ?_⟩
            intro v rest h
            cases h
            have := hdec m rest0 rfl
            simp only [List.length_cons]; omega
        split
        · exact ⟨_, rfl, by intro v rest h; cases h; simp⟩
        split
        · exact ⟨_, rfl, by intro v rest h; cases h; simp⟩
        split
        · split
          · have hl : (bs.drop 4).length < fuel := by simp only [List.length_drop]; omega
            obtain ⟨r, hr, hdec⟩ := ihE (bs.drop 4) [] hl
            rw [hr]
            cases r with
            | error e => exact ⟨_, rfl, by intro v rest h; cases h⟩
            | ok p =>
              obtain ⟨m, rest0⟩ := p
              refine ⟨_, rfl, ?_⟩
              intro v rest h
              cases h
              have := hdec m rest0 rfl
              simp only [List.length_drop] at this
              simp only [List.length_cons]; omega
          · exact ⟨_, rfl, by intro v rest h; cases h⟩
        · exact ⟨_, rfl, by intro v rest h; cases h⟩
    · intro bs acc hlen
      simp only [decodeAMF0Entries]
      split
      · refine ⟨_, rfl, ?_⟩
        intro m rest h
        cases h
        simp
      · cases hs : readAMF0String bs with
        | none => exact ⟨_, rfl, by intro v rest h; cases h⟩
        | some p =>
          obtain ⟨key, rest0⟩ := p
          have hk := readAMF0String_length _ _ _ hs
          obtain ⟨r, hr, hdec⟩ := ihV rest0 (by omega)
          simp only [hr]
          cases r with
          | error e => exact ⟨_, rfl, by intro v rest h; cases h⟩
          | ok p =>
            obtain ⟨v, rest1⟩ := p
            have h1 := hdec v rest1 rfl
            obtain ⟨r2, hr2, hdec2⟩ := ihE rest1 (acc.insert key v) (by omega)
            refine ⟨r2, hr2, ?_⟩
            intro m rest h
            have := hdec2 m rest h
            omega

/-- The loop of the script-data decoder returns on the fuel `DecodeScriptData`
gives it. -/
theorem decodeScriptPairs_fuel (fuel : Nat) (bs : List Nat) (acc : AMF0Map)
    (hlen : bs.length + 1 < fuel) : ∃ r, decodeScriptPairs fuel bs acc = some r := by
  induction fuel generalizing bs acc with
  | zero => omega
  | succ fuel ih =>
    cases bs with
    | nil => exact ⟨_, rfl⟩
    | cons b bs =>
      simp only [List.length_cons, Nat.add_lt_add_iff_right] at hlen
      obtain ⟨r, hr, hdec⟩ := (decodeAMF0_fuel fuel).1 (b :: bs) (by simpa using hlen)
      unfold decodeScriptPairs
      rw [hr]
      cases r with
      | error e => exact ⟨_, rfl⟩
      | ok p =>
        obtain ⟨k, rest⟩ := p
        have h1 := hdec k rest rfl
        simp only [List.length_cons] at h1
        cases k with
        | string key =>
          obtain ⟨r2, hr2, hdec2⟩ := (decodeAMF0_fuel fuel).1 rest (by omega)
          simp only [hr2]
          cases r2 with
          | error e => exact ⟨_, rfl⟩
          | ok p2 =>
            obtain ⟨v, rest1⟩ := p2
            have h2 := hdec2 v rest1 rfl
            exact ih rest1 _ (by omega)
        | _ => exact ⟨_, rfl⟩

/-! ## Lemmas on the tag decoder -/

/-- One `Decode` call on a stream that starts with a whole tag: 11 header
bytes, the declared number of payload bytes, 4 trailer bytes. -/
theorem Decode_whole_tag (dec : Decoder) (hd payload trailer rest : List Nat)
    (hsrc : dec.r.unread = hd ++ (payload ++ (trailer ++ rest)))
    (hhd : hd.length = 11) (hpl : payload.length = beUint ((hd.drop 1).take 3))
    (htr : trailer.length = 4) :
    dec.Decode =
      ((match decodePayload (hd.getD 0 0) payload with
        | Except.error e => Except.error e
        | Except.ok data =>
          Except.ok
            { TagType := hd.getD 0 0, DataSize := payload.length,
              Timestamp := hd.getD 7 0 * 2 ^ 24 + beUint ((hd.drop 4).take 3),
              TimestampExtended := hd.getD 7 0, StreamID := beUint ((hd.drop 8).take 3),
              Data := data }),
       { dec with r := { unread := rest, cursor := dec.r.cursor + 11 + payload.length + 4 } }) := by
  have h1 := readN_append dec.r hd _ hsrc
  rw [hhd] at h1
  have h2 := readN_append { unread := payload ++ (trailer ++ rest), cursor := dec.r.cursor + 11 }
    payload _ rfl
  have h3 := readN_append
    { unread := trailer ++ rest, cursor := dec.r.cursor + 11 + payload.length } trailer _ rfl
  rw [htr] at h3
  rw [hpl] at h2
  unfold Decoder.Decode
  simp only [h1, h2]
  rw [← hpl]
  simp only [h3]
  cases decodePayload (hd.getD 0 0) payload <;> rfl

theorem NewDecoder_valid (hdr pad rest : List Nat) (hhdr : validContainerHeader hdr)
    (hpad : pad.length = 4) :
    NewDecoder (hdr ++ (pad ++ rest)) =
      Except.ok
        { header := { Version := hdr.getD 3 0, Flags := hdr.getD 4 0, HeaderLength := hdr.length },
          r := { unread := rest, cursor := hdr.length + 4 } } := by
  obtain ⟨hlen, hsig, hfield⟩ := hhdr
  have hsplit : hdr ++ (pad ++ rest) = hdr.take 9 ++ (hdr.drop 9 ++ (pad ++ rest)) := by
    rw [← List.append_assoc (hdr.take 9), List.take_append_drop]
  have hl9 : (hdr.take 9).length = 9 := by simp [List.length_take]; omega
  have h1 := readN_append { unread := hdr ++ (pad ++ rest), cursor := 0 } (hdr.take 9) _ hsplit
  rw [hl9] at h1
  have hl2 : (hdr.drop 9).length = hdr.length - 9 := by simp
  have h2 := readN_append { unread := hdr.drop 9 ++ (pad ++ rest), cursor := 0 + 9 }
    (hdr.drop 9) _ rfl
  rw [hl2] at h2
  have h3 := readN_append { unread := pad ++ rest, cursor := 0 + 9 + (hdr.length - 9) }
    pad _ rfl
  rw [hpad] at h3
  have e1 : (hdr.take 9).take 3 = hdr.take 3 := by simp [List.take_take]
  have e2 : (hdr.take 9).drop 5 = (hdr.drop 5).take 4 := by
    rw [List.drop_take]
  have e3 : (hdr.take 9).getD 3 0 = hdr.getD 3 0 := by
    simp [List.getD_eq_getElem?_getD, List.getElem?_take]
  have e4 : (hdr.take 9).getD 4 0 = hdr.getD 4 0 := by
    simp [List.getD_eq_getElem?_getD, List.getElem?_take]
  simp only [NewDecoder, readContainerHeader, h1, e1, e2, e3, e4, hsig, hfield, if_true, h2, h3]
  congr 3
  omega

theorem decodePayload_variant (tagType : Nat) (payload : List Nat) (data : TagData)
    (h : decodePayload tagType payload = Except.ok data) :
    (data.isAudio = true ↔ tagType = TagTypeAudio) ∧
      (data.isVideo = true ↔ tagType = TagTypeVideo) ∧
      (data.isScript = true ↔ tagType = TagTypeScriptData) := by
  unfold decodePayload at h
  split at h
  · split at h
    · cases h
      subst_vars
      simp [TagData.isAudio, TagData.isVideo, TagData.isScript, TagTypeAudio, TagTypeVideo,
        TagTypeScriptData]
    · cases h
  · split at h
    · split at h
      · cases h
        subst_vars
        simp [TagData.isAudio, TagData.isVideo, TagData.isScript, TagTypeAudio, TagTypeVideo,
          TagTypeScriptData]
      · cases h
    · split at h
      · split at h
        · cases h
          subst_vars
          simp [TagData.isAudio, TagData.isVideo, TagData.isScript, TagTypeAudio, TagTypeVideo,
            TagTypeScriptData]
        · cases h
      · cases h

theorem Decode_ok_payload (dec : Decoder) (t : FlvTag) (h : dec.Decode.1 = Except.ok t) :
    t.TagType = dec.r.unread.getD 0 0 ∧
      ∃ payload, decodePayload t.TagType payload = Except.ok t.Data := by
  unfold Decoder.Decode at h
  split at h
  · cases h
  · rename_i hd r1 h1
    simp only at h
    split at h
    · cases h
    · split at h
      · cases h
      · split at h
        · cases h
        · rename_i _ payload r2 h2 _ tr r3 h3 _ data hdata
          simp only [Except.ok.injEq] at h
          subst h
          obtain ⟨hhd, hlen⟩ := readN_ok _ _ _ _ h1
          refine ⟨?_, payload, hdata⟩
          simp only [hhd]
          cases hu : dec.r.unread with
          | nil => simp [hu] at hlen
          | cons a u => rfl

theorem and_15 (b : Nat) : b &&& 0x0f = b % 16 :=
  Nat.and_pow_two_sub_one_eq_mod b 4

theorem shr4_and_15 (b : Nat) (hb : b < 256) : (b >>> 4) &&& 0x0f = b / 16 := by
  rw [and_15, Nat.shiftRight_eq_div_pow]
  exact Nat.mod_eq_of_lt (by omega)

/-! ## Lemmas on draining a byte run -/

theorem discardBufLen_pos : 0 < discardBufLen := by decide

/-- With more fuel than unread bytes the copy loop returns: it has counted
every unread byte and left the run at its end. -/
theorem discardReadFrom_all (fuel : Nat) (r : Reader) (n : Nat)
    (hfuel : r.unread.length < fuel) :
    discardReadFrom fuel r n =
      some (n + r.unread.length, copyError r.atEnd, { unread := [], atEnd := r.atEnd }) := by
  induction fuel generalizing r n with
  | zero => omega
  | succ fuel ih =>
    obtain ⟨u, e⟩ := r
    cases u with
    | nil =>
      cases e <;> simp [discardReadFrom, Reader.Read, copyError]
    | cons a u =>
      have hpos := discardBufLen_pos
      have step := ih { unread := (a :: u).drop discardBufLen, atEnd := e }
        (n + ((a :: u).take discardBufLen).length)
      simp only [discardReadFrom, Reader.Read]
      generalize discardBufLen = k at hpos step ⊢
      simp only [List.length_take, List.length_drop, List.length_cons] at hfuel step ⊢
      rw [step (by omega)]
      have : n + min k (u.length + 1) + (u.length + 1 - k) = n + (u.length + 1) := by omega
      rw [this]

/-- Whenever the copy loop returns, the run it leaves is at its end. -/
theorem discardReadFrom_next (fuel : Nat) (r : Reader) (n : Nat)
    (res : Nat × Option ReadErr × Reader) (h : discardReadFrom fuel r n = some res) :
    res.2.2 = { unread := [], atEnd := r.atEnd } := by
  induction fuel generalizing r n with
  | zero => simp [discardReadFrom] at h
  | succ fuel ih =>
    obtain ⟨u, e⟩ := r
    cases u with
    | nil =>
      cases e <;> simp [discardReadFrom, Reader.Read] at h <;> subst h <;> rfl
    | cons a u =>
      simp only [discardReadFrom, Reader.Read] at h
      exact ih { unread := (a :: u).drop discardBufLen, atEnd := e } _ h

theorem copyToDiscard_set (fuel : Nat) (r : Reader) (hfuel : r.unread.length < fuel) :
    copyToDiscard fuel (some r) =
      some (Except.ok (r.unread.length, copyError r.atEnd, { unread := [], atEnd := r.atEnd })) := by
  simp [copyToDiscard, discardReadFrom_all fuel r 0 hfuel]

theorem audioClose_set (fuel : Nat) (d : AudioData) (r : Reader) (hd : d.Data = some r)
    (hfuel : r.unread.length < fuel) :
    d.Close fuel = some (Except.ok { d with Data := some { unread := [], atEnd := r.atEnd } }) := by
  simp [AudioData.Close, hd, copyToDiscard_set fuel r hfuel]

theorem videoClose_set (fuel : Nat) (d : VideoData) (r : Reader) (hd : d.Data = some r)
    (hfuel : r.unread.length < fuel) :
    d.Close fuel = some (Except.ok { d with Data := some { unread := [], atEnd := r.atEnd } }) := by
  simp [VideoData.Close, hd, copyToDiscard_set fuel r hfuel]

/-- `FlvTag.Close` by cases on the payload's byte run. -/
theorem tagClose_cases (fuel : Nat) (t : FlvTag) :
    t.Close fuel =
      match t.Data.byteRunUnset, t.Data.byteRun with
      | true, _ => some (Except.error Panic.nilDereference)
      | false, none => some (Except.ok t)
      | false, some r =>
        match discardReadFrom fuel r 0 with
        | none => none
        | some (_, _, r') =>
          some (Except.ok { t with Data :=
            match t.Data with
            | TagData.audio d => TagData.audio { d with Data := some r' }
            | TagData.video d => TagData.video { d with Data := some r' }
            | x => x }) := by
  obtain ⟨ty, sz, ts, te, sid, data⟩ := t
  cases data with
  | absent => rfl
  | script s => rfl
  | audio d =>
    obtain ⟨a, b, c, e, f, data⟩ := d
    cases data with
    | none => rfl
    | some r =>
      simp only [FlvTag.Close, AudioData.Close, copyToDiscard, TagData.byteRunUnset,
        TagData.byteRun, Option.isNone]
      cases discardReadFrom fuel r 0 <;> rfl
  | video d =>
    obtain ⟨a, b, c, e, data⟩ := d
    cases data with
    | none => rfl
    | some r =>
      simp only [FlvTag.Close, VideoData.Close, copyToDiscard, TagData.byteRunUnset,
        TagData.byteRun, Option.isNone]
      cases discardReadFrom fuel r 0 <;> rfl

theorem SoundFormatName_entries (f : Nat) (hf : f < 16) :
    SoundFormatName.index f ≠ "" ↔ f ≠ 12 ∧ f ≠ 13 := by
  interval_cases f <;> decide

/-! ## C1: resynchronisation after a malformed tag -/

/-- C1: on a stream made of a valid container header, the 4-byte pad, a whole
tag whose payload the payload decoder rejects and a whole tag whose payload it
accepts, `NewDecoder` succeeds, the first `Decode` returns the payload error
and the second `Decode` returns the second tag with its tag-type, data-size,
timestamp, stream-id and payload. -/
theorem Decode_resynchronises
    (hdr pad hd1 payload1 trailer1 hd2 payload2 trailer2 rest : List Nat)
    (e : DecodeError) (data : TagData)
    (hhdr : validContainerHeader hdr) (hpad : pad.length = 4)
    (hhd1 : hd1.length = 11) (hpl1 : payload1.length = beUint ((hd1.drop 1).take 3))
    (htr1 : trailer1.length = 4)
    (hbad : decodePayload (hd1.getD 0 0) payload1 = Except.error e)
    (hhd2 : hd2.length = 11) (hpl2 : payload2.length = beUint ((hd2.drop 1).take 3))
    (htr2 : trailer2.length = 4)
    (hgood : decodePayload (hd2.getD 0 0) payload2 = Except.ok data) :
    ∃ dec,
      NewDecoder (hdr ++ (pad ++ (hd1 ++ (payload1 ++ (trailer1 ++
        (hd2 ++ (payload2 ++ (trailer2 ++ rest)))))))) = Except.ok dec ∧
      dec.Decode.1 = Except.error e ∧
      ∃ t, dec.Decode.2.Decode.1 = Except.ok t ∧
        t.TagType = hd2.getD 0 0 ∧
        t.DataSize = beUint ((hd2.drop 1).take 3) ∧
        t.Timestamp = hd2.getD 7 0 * 2 ^ 24 + beUint ((hd2.drop 4).take 3) ∧
        t.StreamID = beUint ((hd2.drop 8).take 3) ∧
        t.Data = data := by
  refine ⟨_, NewDecoder_valid hdr pad _ hhdr hpad, ?_⟩
  rw [Decode_whole_tag _ hd1 payload1 trailer1 _ rfl hhd1 hpl1 htr1, hbad]
  refine ⟨rfl, ?_⟩
  simp only
  rw [Decode_whole_tag _ hd2 payload2 trailer2 rest rfl hhd2 hpl2 htr2, hgood]
  exact ⟨_, rfl, rfl, hpl2, rfl, rfl, rfl⟩

/-- C1 on the test stream: the script-data tag with payload FF FF FF FF FF is
rejected with the unsupported marker 0xff and the second call yields the video
tag. -/
theorem Decode_resynchronises_witness :
    decodePayload 0x12 [0xff, 0xff, 0xff, 0xff, 0xff] =
        Except.error (DecodeError.UnsupportedAMF0MarkerError 0xff) ∧
      ∃ dec, NewDecoder testStream = Except.ok dec ∧
        dec.Decode.1 = Except.error (DecodeError.UnsupportedAMF0MarkerError 0xff) ∧
        ∃ t, dec.Decode.2.Decode.1 = Except.ok t ∧
          t.TagType = TagTypeVideo ∧ t.DataSize = 5 ∧ t.Timestamp = 0 ∧ t.StreamID = 0 ∧
          t.Data = TagData.video
            { FrameType := 0, CodecID := 1, AVCPacketType := 0, CompositionTime := 0,
              Data := some { unread := [0x02, 0x03, 0x04, 0x05], atEnd := ReadErr.EOF } } :=
  ⟨rfl,
    Decode_resynchronises
      [0x46, 0x4c, 0x56, 0x01, 0x05, 0x00, 0x00, 0x00, 0x09] [0x00, 0x00, 0x00, 0x00]
      [0x12, 0x00, 0x00, 0x05, 0x00, 0x00, 0x00, 0x00, 0x00, 0x00, 0x00]
      [0xff, 0xff, 0xff, 0xff, 0xff] [0x00, 0x00, 0x00, 0x10]
      [0x09, 0x00, 0x00, 0x05, 0x00, 0x00, 0x00, 0x00, 0x00, 0x00, 0x00]
      [0x01, 0x02, 0x03, 0x04, 0x05] [0x00, 0x00, 0x00, 0x10] []
      (DecodeError.UnsupportedAMF0MarkerError 0xff)
      (TagData.video
        { FrameType := 0, CodecID := 1, AVCPacketType := 0, CompositionTime := 0,
          Data := some { unread := [0x02, 0x03, 0x04, 0x05], atEnd := ReadErr.EOF } })
      (by decide) rfl rfl rfl rfl rfl rfl rfl rfl rfl⟩

/-! ## C2: framing invariant -/

/-- C2: when the stream holds a whole tag (11 header bytes declaring payload
length L, the L payload bytes, the 4 trailer bytes), one `Decode` call moves
the cursor by exactly 11 + L + 4 bytes and leaves the bytes after the tag,
whatever the tag-type byte and the outcome of payload decoding. -/
theorem Decode_framing (dec : Decoder) (hd payload trailer rest : List Nat)
    (hsrc : dec.r.unread = hd ++ (payload ++ (trailer ++ rest)))
    (hhd : hd.length = 11) (hpl : payload.length = beUint ((hd.drop 1).take 3))
    (htr : trailer.length = 4) :
    dec.Decode.2.r.cursor = dec.r.cursor + (11 + payload.length + 4) ∧
      dec.Decode.2.r.unread = dec.r.unread.drop (11 + payload.length + 4) ∧
      dec.Decode.2.r.unread = rest ∧
      dec.Decode.2.header = dec.header := by
  rw [Decode_whole_tag dec hd payload trailer rest hsrc hhd hpl htr]
  refine ⟨by simp only; omega, ?_, rfl, rfl⟩
  have hlen : 11 + payload.length + 4 = (hd ++ (payload ++ trailer)).length := by
    simp only [List.length_append, hhd, htr]; omega
  rw [hsrc, hlen]
  simp only [← List.append_assoc]
  rw [List.drop_left]

/-- C2 on the test stream: each of the two tags moves the cursor by
11 + 5 + 4 = 20 bytes, the first one with a failing payload. -/
theorem Decode_framing_witness :
    (testDecoder.Decode.2.r.cursor = 13 + (11 + 5 + 4) ∧
        testDecoder.Decode.2.r.unread = testDecoder.r.unread.drop (11 + 5 + 4) ∧
        testDecoder.Decode.2.r.unread = testStream.drop 33 ∧
        testDecoder.Decode.2.header = testDecoder.header) ∧
      (testDecoder.Decode.2.Decode.2.r.cursor = 33 + (11 + 5 + 4) ∧
        testDecoder.Decode.2.Decode.2.r.unread =
          testDecoder.Decode.2.r.unread.drop (11 + 5 + 4) ∧
        testDecoder.Decode.2.Decode.2.r.unread = [] ∧
        testDecoder.Decode.2.Decode.2.header = testDecoder.Decode.2.header) :=
  ⟨Decode_framing testDecoder
      [0x12, 0x00, 0x00, 0x05, 0x00, 0x00, 0x00, 0x00, 0x00, 0x00, 0x00]
      [0xff, 0xff, 0xff, 0xff, 0xff] [0x00, 0x00, 0x00, 0x10] (testStream.drop 33)
      rfl rfl rfl rfl,
    Decode_framing testDecoder.Decode.2
      [0x09, 0x00, 0x00, 0x05, 0x00, 0x00, 0x00, 0x00, 0x00, 0x00, 0x00]
      [0x01, 0x02, 0x03, 0x04, 0x05] [0x00, 0x00, 0x00, 0x10] []
      rfl rfl rfl rfl⟩

/-! ## C3: `Read` on an audio or video payload -/

/-- C3: `AudioData.Read` and `VideoData.Read` call themselves and nothing
else, so no amount of fuel makes either return, for any payload and buffer;
in particular neither returns what reading the byte run `d.Data` returns. -/
theorem Read_never_returns (fuel bufLen : Nat) (a : AudioData) (v : VideoData) :
    AudioData.Read fuel a bufLen = none ∧ VideoData.Read fuel v bufLen = none := by
  induction fuel with
  | zero => exact ⟨rfl, rfl⟩
  | succ fuel ih => simpa [AudioData.Read, VideoData.Read] using ih

/-! ## C4: closing a tag drains its payload -/

/-- C4: for a tag whose audio or video payload has a byte run `r` with no
read failure, `Close` returns (with more fuel than unread bytes), the copy
counts all `r.unread.length` bytes, the byte run of the closed tag is at
end-of-data, and a read from it delivers zero bytes and `io.EOF`. -/
theorem Close_drains (fuel : Nat) (t : FlvTag) (r : Reader)
    (hrun : t.Data.byteRun = some r) (hok : r.atEnd = ReadErr.EOF)
    (hfuel : r.unread.length < fuel) :
    copyToDiscard fuel (some r) =
        some (Except.ok (r.unread.length, none, { unread := [], atEnd := ReadErr.EOF })) ∧
      ∃ t', t.Close fuel = some (Except.ok t') ∧
        t'.Data.byteRun = some { unread := [], atEnd := ReadErr.EOF } ∧
        ∀ bufLen, Reader.Read { unread := [], atEnd := ReadErr.EOF } bufLen =
          { bytes := [], err := some ReadErr.EOF,
            next := { unread := [], atEnd := ReadErr.EOF } } := by
  refine ⟨?_, ?_⟩
  · rw [copyToDiscard_set fuel r hfuel, hok]; rfl
  · obtain ⟨ty, sz, ts, te, sid, data⟩ := t
    cases data with
    | absent => simp [TagData.byteRun] at hrun
    | script s => simp [TagData.byteRun] at hrun
    | audio d =>
      simp only [TagData.byteRun] at hrun
      refine ⟨⟨ty, sz, ts, te, sid,
        TagData.audio { d with Data := some { unread := [], atEnd := r.atEnd } }⟩,
        ?_, ?_, fun _ => rfl⟩
      · simp only [FlvTag.Close, audioClose_set fuel d r hrun hfuel]
      · simp [TagData.byteRun, hok]
    | video d =>
      simp only [TagData.byteRun] at hrun
      refine ⟨⟨ty, sz, ts, te, sid,
        TagData.video { d with Data := some { unread := [], atEnd := r.atEnd } }⟩,
        ?_, ?_, fun _ => rfl⟩
      · simp only [FlvTag.Close, videoClose_set fuel d r hrun hfuel]
      · simp [TagData.byteRun, hok]

/-- C4 on an audio tag with three unread bytes. -/
theorem Close_drains_witness :
    sampleAudioTag.Data.byteRun = some { unread := [1, 2, 3], atEnd := ReadErr.EOF } ∧
    copyToDiscard 4 (some { unread := [1, 2, 3], atEnd := ReadErr.EOF }) =
        some (Except.ok (3, none, { unread := [], atEnd := ReadErr.EOF })) ∧
      ∃ t', sampleAudioTag.Close 4 = some (Except.ok t') ∧
        t'.Data.byteRun = some { unread := [], atEnd := ReadErr.EOF } ∧
        ∀ bufLen, Reader.Read { unread := [], atEnd := ReadErr.EOF } bufLen =
          { bytes := [], err := some ReadErr.EOF,
            next := { unread := [], atEnd := ReadErr.EOF } } :=
  ⟨rfl, Close_drains 4 sampleAudioTag { unread := [1, 2, 3], atEnd := ReadErr.EOF }
    rfl rfl (by decide)⟩

/-! ## C5: exhaustive dispatch on the tag type -/

/-- C5: the tag-type constants are 8, 9 and 18 and pairwise distinct; a tag
that `Decode` returns carries the stream's tag-type byte and its payload is
the audio variant iff that byte is 8, the video variant iff it is 9 and the
script-data variant iff it is 18; on a whole tag with any other tag-type byte
`Decode` returns `UnknownTagTypeError` with that byte, and no tag. -/
theorem Decode_dispatch :
    (TagTypeAudio = 8 ∧ TagTypeVideo = 9 ∧ TagTypeScriptData = 18) ∧
      (TagTypeAudio ≠ TagTypeVideo ∧ TagTypeAudio ≠ TagTypeScriptData ∧
        TagTypeVideo ≠ TagTypeScriptData) ∧
      (∀ (dec : Decoder) (t : FlvTag), dec.Decode.1 = Except.ok t →
        t.TagType = dec.r.unread.getD 0 0 ∧
          (t.Data.isAudio = true ↔ t.TagType = 8) ∧
          (t.Data.isVideo = true ↔ t.TagType = 9) ∧
          (t.Data.isScript = true ↔ t.TagType = 18)) ∧
      (∀ (dec : Decoder) (hd payload trailer rest : List Nat),
        dec.r.unread = hd ++ (payload ++ (trailer ++ rest)) →
        hd.length = 11 → payload.length = beUint ((hd.drop 1).take 3) → trailer.length = 4 →
        hd.getD 0 0 ≠ 8 → hd.getD 0 0 ≠ 9 → hd.getD 0 0 ≠ 18 →
        dec.Decode.1 = Except.error (DecodeError.UnknownTagTypeError (hd.getD 0 0))) := by
  refine ⟨⟨rfl, rfl, rfl⟩, ⟨by decide, by decide, by decide⟩, ?_, ?_⟩
  · intro dec t h
    obtain ⟨h1, payload, h2⟩ := Decode_ok_payload dec t h
    exact ⟨h1, decodePayload_variant _ _ _ h2⟩
  · intro dec hd payload trailer rest hsrc hhd hpl htr h8 h9 h18
    rw [Decode_whole_tag dec hd payload trailer rest hsrc hhd hpl htr]
    simp only [decodePayload, TagTypeAudio, TagTypeVideo, TagTypeScriptData, if_neg h8,
      if_neg h9, if_neg h18]

/-- C5 on the test stream (the tag with type byte 0x09 decodes as a video tag
with `TagType = TagTypeVideo`) and on a tag of the unknown type 0x0a. -/
theorem Decode_dispatch_witness :
    (testDecoder.Decode.2.Decode.1 = Except.ok testVideoTag ∧
        testVideoTag.TagType = TagTypeVideo ∧
        testVideoTag.TagType = testDecoder.Decode.2.r.unread.getD 0 0 ∧
        (testVideoTag.Data.isAudio = true ↔ testVideoTag.TagType = 8) ∧
        (testVideoTag.Data.isVideo = true ↔ testVideoTag.TagType = 9) ∧
        (testVideoTag.Data.isScript = true ↔ testVideoTag.TagType = 18)) ∧
      unknownTypeDecoder.Decode.1 = Except.error (DecodeError.UnknownTagTypeError 0x0a) :=
  ⟨⟨rfl, rfl, Decode_dispatch.2.2.1 testDecoder.Decode.2 testVideoTag rfl⟩,
    Decode_dispatch.2.2.2 unknownTypeDecoder
      [0x0a, 0x00, 0x00, 0x01, 0x00, 0x00, 0x00, 0x00, 0x00, 0x00, 0x00]
      [0xaa] [0x00, 0x00, 0x00, 0x0c] [] rfl rfl rfl rfl
      (by decide) (by decide) (by decide)⟩

/-! ## C6: video header decoding -/

/-- C6: for a video payload with first byte `b`, a decoded payload has
`FrameType = b / 16` and `CodecID = b mod 16`; when the codec-id is not AVC (7)
decoding succeeds, whatever the codec-id, and the raw byte run is exactly the
payload bytes after the first. -/
theorem DecodeVideoData_header (b : Nat) (rest : List Nat) (hb : b < 256) :
    (∀ v, DecodeVideoData (b :: rest) = Except.ok v →
        v.FrameType = b / 16 ∧ v.CodecID = b % 16) ∧
      (b % 16 ≠ CodecIDAVC →
        ∃ v, DecodeVideoData (b :: rest) = Except.ok v ∧ v.FrameType = b / 16 ∧
          v.CodecID = b % 16 ∧ v.Data = some { unread := rest, atEnd := ReadErr.EOF }) := by
  refine ⟨?_, ?_⟩
  · intro v hv
    simp only [DecodeVideoData, and_15, shr4_and_15 b hb] at hv
    split at hv
    · split at hv
      · cases hv
      · split at hv
        · split at hv
          · cases hv; exact ⟨rfl, rfl⟩
          · cases hv
        · cases hv
    · cases hv; exact ⟨rfl, rfl⟩
  · intro hc
    refine ⟨⟨b / 16, b % 16, 0, 0, some { unread := rest, atEnd := ReadErr.EOF }⟩, ?_,
      rfl, rfl, rfl⟩
    simp only [DecodeVideoData, and_15, shr4_and_15 b hb, if_neg hc]

/-- C6 on the test payload 01 02 03 04 05: frame-type 0, codec-id 1 and raw
bytes 02 03 04 05. -/
theorem DecodeVideoData_header_witness :
    (0x01 : Nat) < 256 ∧ 0x01 / 16 = 0 ∧ 0x01 % 16 = 1 ∧ 0x01 % 16 ≠ CodecIDAVC ∧
    ((∀ v, DecodeVideoData (0x01 :: [0x02, 0x03, 0x04, 0x05]) = Except.ok v →
        v.FrameType = 0x01 / 16 ∧ v.CodecID = 0x01 % 16) ∧
      (0x01 % 16 ≠ CodecIDAVC →
        ∃ v, DecodeVideoData (0x01 :: [0x02, 0x03, 0x04, 0x05]) = Except.ok v ∧
          v.FrameType = 0x01 / 16 ∧ v.CodecID = 0x01 % 16 ∧
          v.Data = some { unread := [0x02, 0x03, 0x04, 0x05], atEnd := ReadErr.EOF })) :=
  ⟨by decide, by decide, by decide, by decide,
    DecodeVideoData_header 0x01 [0x02, 0x03, 0x04, 0x05] (by decide)⟩

/-! ## C7: packet-type names -/

/-- C7: `AACPacketTypeName` maps 0 to "SequenceHeader", 1 to "Raw" and every
other value to the empty string; `AVCPacketTypeName` maps 0, 1, 2 to
"SequenceHeader", "NALU", "EOS" and every other value to the empty string; so
a value has an AAC (AVC) packet-type name exactly when it is one of the AAC
(AVC) packet-type constants. -/
theorem PacketTypeName_table (b : Nat) :
    AACPacketTypeName.index b =
        (if b = 0 then "SequenceHeader" else if b = 1 then "Raw" else "") ∧
      AVCPacketTypeName.index b =
        (if b = 0 then "SequenceHeader" else if b = 1 then "NALU"
          else if b = 2 then "EOS" else "") ∧
      (AACPacketTypeName.index b ≠ "" ↔ b = AACPacketTypeSequenceHeader ∨ b = AACPacketTypeRaw) ∧
      (AVCPacketTypeName.index b ≠ "" ↔
        b = AVCPacketTypeSequenceHeader ∨ b = AVCPacketTypeNALU ∨ b = AVCPacketTypeEOS) := by
  rcases b with _ | _ | _ | b <;>
    simp [NameMap.index, AACPacketTypeName, AVCPacketTypeName, List.find?,
      AACPacketTypeSequenceHeader, AACPacketTypeRaw, AVCPacketTypeSequenceHeader,
      AVCPacketTypeNALU, AVCPacketTypeEOS]

/-! ## C8: names of the audio header fields -/

/-- C8, as stated, fails: the header byte 0xC0 has sound-format 12, which has
no entry in `SoundFormatName`, so the name is empty. -/
theorem SoundFormatName_missing_entry :
    (192 : Nat) < 256 ∧ 192 / 16 = 12 ∧ SoundFormatName.index (192 / 16) = "" ∧
      AudioData.SoundFormatName
        { SoundFormat := 192 / 16, SoundRate := 192 / 4 % 4, SoundSize := 192 / 2 % 2,
          SoundType := 192 % 2, AACPacketType := 0, Data := none } = "" := by
  decide

/-- C8, amended: for every audio header byte `b`, the sound-rate, sound-size
and sound-type have a non-empty name, and the sound-format `b / 16` has a
non-empty name exactly when it is not 12 or 13; the same holds through the
accessors of an `AudioData` holding these fields. -/
theorem audio_header_names (b : Nat) (hb : b < 256) (aac : Nat) (run : Option Reader) :
    (SoundFormatName.index (b / 16) ≠ "" ↔ b / 16 ≠ 12 ∧ b / 16 ≠ 13) ∧
      SoundRateName.index (b / 4 % 4) ≠ "" ∧
      SoundSizeName.index (b / 2 % 2) ≠ "" ∧
      SoundTypeName.index (b % 2) ≠ "" ∧
      (AudioData.SoundFormatName
          { SoundFormat := b / 16, SoundRate := b / 4 % 4, SoundSize := b / 2 % 2,
            SoundType := b % 2, AACPacketType := aac, Data := run } ≠ "" ↔
        b / 16 ≠ 12 ∧ b / 16 ≠ 13) ∧
      AudioData.SoundRateName
          { SoundFormat := b / 16, SoundRate := b / 4 % 4, SoundSize := b / 2 % 2,
            SoundType := b % 2, AACPacketType := aac, Data := run } ≠ "" ∧
      AudioData.SoundSizeName
          { SoundFormat := b / 16, SoundRate := b / 4 % 4, SoundSize := b / 2 % 2,
            SoundType := b % 2, AACPacketType := aac, Data := run } ≠ "" ∧
      AudioData.SoundTypeName
          { SoundFormat := b / 16, SoundRate := b / 4 % 4, SoundSize := b / 2 % 2,
            SoundType := b % 2, AACPacketType := aac, Data := run } ≠ "" := by
  have hf : b / 16 < 16 := by omega
  have hr : b / 4 % 4 < 4 := Nat.mod_lt _ (by decide)
  have hs : b / 2 % 2 < 2 := Nat.mod_lt _ (by decide)
  have ht : b % 2 < 2 := Nat.mod_lt _ (by decide)
  have h1 := SoundFormatName_entries (b / 16) hf
  have h2 : ∀ r, r < 4 → SoundRateName.index r ≠ "" := by
    intro r h; interval_cases r <;> decide
  have h3 : ∀ r, r < 2 → SoundSizeName.index r ≠ "" := by
    intro r h; interval_cases r <;> decide
  have h4 : ∀ r, r < 2 → SoundTypeName.index r ≠ "" := by
    intro r h; interval_cases r <;> decide
  exact ⟨h1, h2 _ hr, h3 _ hs, h4 _ ht, h1, h2 _ hr, h3 _ hs, h4 _ ht⟩

/-- C8, amended, on the header byte 0x2f (MP3, 44 kHz, 16 bit, stereo). -/
theorem audio_header_names_witness :
    (0x2f : Nat) < 256 ∧
    ((SoundFormatName.index (0x2f / 16) ≠ "" ↔ 0x2f / 16 ≠ 12 ∧ 0x2f / 16 ≠ 13) ∧
      SoundRateName.index (0x2f / 4 % 4) ≠ "" ∧
      SoundSizeName.index (0x2f / 2 % 2) ≠ "" ∧
      SoundTypeName.index (0x2f % 2) ≠ "" ∧
      (AudioData.SoundFormatName
          { SoundFormat := 0x2f / 16, SoundRate := 0x2f / 4 % 4, SoundSize := 0x2f / 2 % 2,
            SoundType := 0x2f % 2, AACPacketType := 0, Data := none } ≠ "" ↔
        0x2f / 16 ≠ 12 ∧ 0x2f / 16 ≠ 13) ∧
      AudioData.SoundRateName
          { SoundFormat := 0x2f / 16, SoundRate := 0x2f / 4 % 4, SoundSize := 0x2f / 2 % 2,
            SoundType := 0x2f % 2, AACPacketType := 0, Data := none } ≠ "" ∧
      AudioData.SoundSizeName
          { SoundFormat := 0x2f / 16, SoundRate := 0x2f / 4 % 4, SoundSize := 0x2f / 2 % 2,
            SoundType := 0x2f % 2, AACPacketType := 0, Data := none } ≠ "" ∧
      AudioData.SoundTypeName
          { SoundFormat := 0x2f / 16, SoundRate := 0x2f / 4 % 4, SoundSize := 0x2f / 2 % 2,
            SoundType := 0x2f % 2, AACPacketType := 0, Data := none } ≠ "") :=
  ⟨by decide, audio_header_names 0x2f (by decide) 0 none⟩

/-! ## C9: `FlvTag.Close` returns -/

/-- C9, as stated, fails: on a video payload whose byte run `Data` is unset,
`Close` panics at the first read through the nil reader. -/
theorem Close_panics_on_unset_run :
    sampleVideoUnset.Data.byteRunUnset = true ∧
      sampleVideoUnset.Close 1 = some (Except.error Panic.nilDereference) :=
  ⟨rfl, rfl⟩

/-- C9, amended: with more fuel than unread bytes, `Close` returns normally
exactly on the tags whose audio or video payload, if any, has its byte run
set (a script-data payload, no payload, a byte run that reads to `io.EOF`, a
byte run that reports a read error while drained); on an unset byte run it
panics. -/
theorem Close_returns (fuel : Nat) (t : FlvTag)
    (hfuel : t.Data.unreadLength < fuel) :
    ((∃ t', t.Close fuel = some (Except.ok t')) ↔ t.Data.byteRunUnset = false) ∧
      (t.Data.byteRunUnset = true → t.Close fuel = some (Except.error Panic.nilDereference)) := by
  rw [tagClose_cases]
  cases hu : t.Data.byteRunUnset with
  | true => simp
  | false =>
    cases hr : t.Data.byteRun with
    | none => simp
    | some r =>
      simp only [TagData.unreadLength, hr] at hfuel
      simp [discardReadFrom_all fuel r 0 hfuel]

/-- C9, amended, on an audio tag whose byte run reports a read error after
its two bytes: `Close` returns normally. -/
theorem Close_returns_witness :
    sampleAudioFailing.Data.unreadLength < 3 ∧
      sampleAudioFailing.Data.byteRunUnset = false ∧
      ((∃ t', sampleAudioFailing.Close 3 = some (Except.ok t')) ↔
          sampleAudioFailing.Data.byteRunUnset = false) ∧
        (sampleAudioFailing.Data.byteRunUnset = true →
          sampleAudioFailing.Close 3 = some (Except.error Panic.nilDereference)) :=
  ⟨by decide, rfl, Close_returns 3 sampleAudioFailing (by decide)⟩

/-! ## C10: frame of `FlvTag.Close` -/

/-- C10: whenever `Close` returns a tag, its `TagType`, `DataSize`,
`Timestamp`, `TimestampExtended` and `StreamID` are those of the tag closed,
and its payload is the same variant with the same decoded header fields, its
byte run being the earlier one at a later read position; on a script-data
payload or an absent payload `Close` returns the tag itself. -/
theorem Close_frame (fuel : Nat) (t : FlvTag) :
    (∀ t', t.Close fuel = some (Except.ok t') →
        t'.TagType = t.TagType ∧ t'.DataSize = t.DataSize ∧ t'.Timestamp = t.Timestamp ∧
          t'.TimestampExtended = t.TimestampExtended ∧ t'.StreamID = t.StreamID ∧
          TagData.sameUpToReadPosition t'.Data t.Data) ∧
      (∀ s, t.Data = TagData.script s → t.Close fuel = some (Except.ok t)) ∧
      (t.Data = TagData.absent → t.Close fuel = some (Except.ok t)) := by
  obtain ⟨ty, sz, ts, te, sid, data⟩ := t
  refine ⟨?_, ?_, ?_⟩
  · intro t' h
    cases data with
    | absent =>
      simp only [FlvTag.Close, Option.some.injEq, Except.ok.injEq] at h
      subst h
      simp [TagData.sameUpToReadPosition]
    | script s =>
      simp only [FlvTag.Close, Option.some.injEq, Except.ok.injEq] at h
      subst h
      simp [TagData.sameUpToReadPosition]
    | audio d =>
      obtain ⟨a, b, c, e, f, run⟩ := d
      cases run with
      | none => simp [FlvTag.Close, AudioData.Close, copyToDiscard] at h
      | some r =>
        simp only [FlvTag.Close, AudioData.Close, copyToDiscard] at h
        cases hres : discardReadFrom fuel r 0 with
        | none => simp [hres] at h
        | some res =>
          have hnext := discardReadFrom_next fuel r 0 res hres
          obtain ⟨m, err, r'⟩ := res
          simp only [hres, Option.map_some', Option.some.injEq, Except.ok.injEq] at h
          simp only at hnext
          subst h hnext
          simp [TagData.sameUpToReadPosition, Reader.movedFrom]
    | video d =>
      obtain ⟨a, b, c, e, run⟩ := d
      cases run with
      | none => simp [FlvTag.Close, VideoData.Close, copyToDiscard] at h
      | some r =>
        simp only [FlvTag.Close, VideoData.Close, copyToDiscard] at h
        cases hres : discardReadFrom fuel r 0 with
        | none => simp [hres] at h
        | some res =>
          have hnext := discardReadFrom_next fuel r 0 res hres
          obtain ⟨m, err, r'⟩ := res
          simp only [hres, Option.map_some', Option.some.injEq, Except.ok.injEq] at h
          simp only at hnext
          subst h hnext
          simp [TagData.sameUpToReadPosition, Reader.movedFrom]
  · intro s hs
    simp only at hs
    subst hs
    rfl
  · intro hs
    simp only at hs
    subst hs
    rfl

/-- C10 on an audio tag with three unread bytes (closed: same fields, byte
run at its end) and on a script-data tag (closed: the tag itself). -/
theorem Close_frame_witness :
    sampleAudioTag.Close 4 = some (Except.ok sampleAudioTagClosed) ∧
      (sampleAudioTagClosed.TagType = sampleAudioTag.TagType ∧
        sampleAudioTagClosed.DataSize = sampleAudioTag.DataSize ∧
        sampleAudioTagClosed.Timestamp = sampleAudioTag.Timestamp ∧
        sampleAudioTagClosed.TimestampExtended = sampleAudioTag.TimestampExtended ∧
        sampleAudioTagClosed.StreamID = sampleAudioTag.StreamID ∧
        TagData.sameUpToReadPosition sampleAudioTagClosed.Data sampleAudioTag.Data) ∧
      sampleScriptTag.Close 0 = some (Except.ok sampleScriptTag) :=
  ⟨rfl, (Close_frame 4 sampleAudioTag).1 sampleAudioTagClosed rfl,
    (Close_frame 0 sampleScriptTag).2.1 { Objects := [] } rfl⟩

/-! ## C11: `FlvTag.Close` is idempotent -/

/-- C11: for a tag whose payload byte run, if any, is set and reads without
failure, `Close` returns a tag on which a second `Close` returns that same
tag: the byte run has no unread bytes left, and the copy of the second call
counts zero bytes and leaves the run as it is. -/
theorem Close_idempotent (fuel fuel2 : Nat) (t : FlvTag)
    (hset : t.Data.byteRunUnset = false)
    (hok : ∀ r, t.Data.byteRun = some r → r.atEnd = ReadErr.EOF)
    (hfuel : t.Data.unreadLength < fuel) (hfuel2 : 0 < fuel2) :
    ∃ t', t.Close fuel = some (Except.ok t') ∧
      t'.Close fuel2 = some (Except.ok t') ∧
      t'.Data.unreadLength = 0 ∧
      ∀ r', t'.Data.byteRun = some r' →
        copyToDiscard fuel2 (some r') = some (Except.ok (0, none, r')) := by
  obtain ⟨ty, sz, ts, te, sid, data⟩ := t
  cases data with
  | absent => exact ⟨_, rfl, rfl, rfl, fun r' h => by simp [TagData.byteRun] at h⟩
  | script s => exact ⟨_, rfl, rfl, rfl, fun r' h => by simp [TagData.byteRun] at h⟩
  | audio d =>
    cases hd : d.Data with
    | none => simp [TagData.byteRunUnset, hd] at hset
    | some r =>
      have hr : r.atEnd = ReadErr.EOF := hok r (by simpa [TagData.byteRun] using hd)
      simp only [TagData.unreadLength, TagData.byteRun, hd] at hfuel
      have hend : ({ unread := [], atEnd := r.atEnd } : Reader).unread.length < fuel2 := hfuel2
      refine ⟨⟨ty, sz, ts, te, sid,
        TagData.audio { d with Data := some { unread := [], atEnd := r.atEnd } }⟩,
        ?_, ?_, rfl, ?_⟩
      · simp only [FlvTag.Close, audioClose_set fuel d r hd hfuel]
      · have h2 := audioClose_set fuel2
          { d with Data := some { unread := [], atEnd := r.atEnd } }
          { unread := [], atEnd := r.atEnd } rfl hend
        simp only [FlvTag.Close, h2]
      · intro r' h
        simp only [TagData.byteRun, Option.some.injEq] at h
        subst h
        rw [copyToDiscard_set fuel2 _ hend, hr]
        rfl
  | video d =>
    cases hd : d.Data with
    | none => simp [TagData.byteRunUnset, hd] at hset
    | some r =>
      have hr : r.atEnd = ReadErr.EOF := hok r (by simpa [TagData.byteRun] using hd)
      simp only [TagData.unreadLength, TagData.byteRun, hd] at hfuel
      have hend : ({ unread := [], atEnd := r.atEnd } : Reader).unread.length < fuel2 := hfuel2
      refine ⟨⟨ty, sz, ts, te, sid,
        TagData.video { d with Data := some { unread := [], atEnd := r.atEnd } }⟩,
        ?_, ?_, rfl, ?_⟩
      · simp only [FlvTag.Close, videoClose_set fuel d r hd hfuel]
      · have h2 := videoClose_set fuel2
          { d with Data := some { unread := [], atEnd := r.atEnd } }
          { unread := [], atEnd := r.atEnd } rfl hend
        simp only [FlvTag.Close, h2]
      · intro r' h
        simp only [TagData.byteRun, Option.some.injEq] at h
        subst h
        rw [copyToDiscard_set fuel2 _ hend, hr]
        rfl

/-- C11 on an audio tag with three unread bytes: the first `Close` drains
them, the second returns the drained tag unchanged. -/
theorem Close_idempotent_witness :
    sampleAudioTag.Data.byteRunUnset = false ∧ sampleAudioTag.Data.unreadLength < 4 ∧
      sampleAudioTag.Close 4 = some (Except.ok sampleAudioTagClosed) ∧
      sampleAudioTagClosed.Close 1 = some (Except.ok sampleAudioTagClosed) ∧
      ∃ t', sampleAudioTag.Close 4 = some (Except.ok t') ∧
        t'.Close 1 = some (Except.ok t') ∧
        t'.Data.unreadLength = 0 ∧
        ∀ r', t'.Data.byteRun = some r' →
          copyToDiscard 1 (some r') = some (Except.ok (0, none, r')) :=
  ⟨rfl, by decide, rfl, rfl,
    Close_idempotent 4 1 sampleAudioTag rfl
      (fun r h => by
        have : r = { unread := [1, 2, 3], atEnd := ReadErr.EOF } :=
          (Option.some.inj h).symm
        rw [this])
      (by decide) (by decide)⟩

/-! ## C12: the display-name tables are injective on their entries -/

theorem index_entry (m : NameMap) (k : Nat) (h : m.index k ≠ "") :
    (k, m.index k) ∈ m := by
  unfold NameMap.index at h ⊢
  cases hf : m.find? (fun e => e.1 == k) with
  | none => simp [hf] at h
  | some e =>
    have hk := List.find?_some hf
    have hmem := List.mem_of_find?_eq_some hf
    simp only [beq_iff_eq] at hk
    simp only
    rw [← hk]
    exact hmem

theorem index_of_key (m : NameMap) (k : Nat) (hk : k ∈ m.map Prod.fst) :
    ∃ e ∈ m, m.index k = e.2 := by
  unfold NameMap.index
  cases hf : m.find? (fun e => e.1 == k) with
  | none =>
    rw [List.find?_eq_none] at hf
    obtain ⟨e, he, rfl⟩ := List.mem_map.1 hk
    exact absurd (by simp) (hf e he)
  | some e => exact ⟨e, List.mem_of_find?_eq_some hf, rfl⟩

/-- A table with non-empty, pairwise distinct names is injective on its
entries. -/
theorem injectiveOnEntries_of_nodup (m : NameMap) (hne : ∀ e ∈ m, e.2 ≠ "")
    (hnd : (m.map Prod.snd).Nodup) : m.injectiveOnEntries := by
  refine ⟨hne, ?_, ?_⟩
  · intro k
    constructor
    · intro h
      exact List.mem_map.2 ⟨_, index_entry m k h, rfl⟩
    · intro hk
      obtain ⟨e, he, heq⟩ := index_of_key m k hk
      rw [heq]
      exact hne e he
  · intro x y hxy hx
    have hy : m.index y ≠ "" := hxy ▸ hx
    have ex := index_entry m x hx
    have ey := index_entry m y hy
    have := List.inj_on_of_nodup_map hnd ex ey hxy
    exact (Prod.mk.inj this).1

/-- C12: each of the nine display-name tables is injective on its entries
(every entry's name is non-empty, a value has a non-empty name exactly when it
has an entry, and two values with the same non-empty name are equal), and
`GetAVCNaluTypeName x = GetAVCNaluTypeName y ≠ ""` implies `x = y`. -/
theorem name_tables_injective :
    SoundFormatName.injectiveOnEntries ∧ SoundRateName.injectiveOnEntries ∧
      SoundSizeName.injectiveOnEntries ∧ SoundTypeName.injectiveOnEntries ∧
      AACPacketTypeName.injectiveOnEntries ∧ FrameTypeName.injectiveOnEntries ∧
      CodecIDName.injectiveOnEntries ∧ AVCPacketTypeName.injectiveOnEntries ∧
      AVCNaluTypeName.injectiveOnEntries ∧
      ∀ x y, GetAVCNaluTypeName x = GetAVCNaluTypeName y → GetAVCNaluTypeName x ≠ "" →
        x = y := by
  have h9 : AVCNaluTypeName.injectiveOnEntries :=
    injectiveOnEntries_of_nodup _ (by decide) (by decide)
  exact ⟨injectiveOnEntries_of_nodup _ (by decide) (by decide),
    injectiveOnEntries_of_nodup _ (by decide) (by decide),
    injectiveOnEntries_of_nodup _ (by decide) (by decide),
    injectiveOnEntries_of_nodup _ (by decide) (by decide),
    injectiveOnEntries_of_nodup _ (by decide) (by decide),
    injectiveOnEntries_of_nodup _ (by decide) (by decide),
    injectiveOnEntries_of_nodup _ (by decide) (by decide),
    injectiveOnEntries_of_nodup _ (by decide) (by decide),
    h9, h9.2.2⟩

/-- C12 on MP3 (2) against MP3_8kHz (14) in `SoundFormatName`, and on SPS (7)
against PPS (8) through `GetAVCNaluTypeName`: the names are non-empty and
differ. -/
theorem name_tables_injective_witness :
    SoundFormatName.index 2 ≠ "" ∧ SoundFormatName.index 2 ≠ SoundFormatName.index 14 ∧
      GetAVCNaluTypeName 7 ≠ "" ∧ GetAVCNaluTypeName 7 ≠ GetAVCNaluTypeName 8 :=
  ⟨by decide,
    fun h => absurd (name_tables_injective.1.2.2 2 14 h (by decide)) (by decide),
    by decide,
    fun h =>
      absurd (name_tables_injective.2.2.2.2.2.2.2.2.2 7 8 h (by decide)) (by decide)⟩

end Flv
